import Mathlib

/-!
Shallow embedding of `haystack/preview/components/file_converters/pypdf.py`:
the `PyPDFToDocument` component, which converts PDF files (given as
file-system paths or in-memory byte streams) to `Document` records.
-/

/-- In-memory byte buffer (`haystack.preview.dataclasses.ByteStream`); the
converter reads only its `data` payload. -/
structure ByteStream where
  data : List Nat
deriving DecidableEq, Repr

/-- The runtime type of one element of the `paths` argument of `run`:
`str` and `path` are the two accepted file-system path types (`str` and
`pathlib.Path`, both converted with `str(path)` before opening), `stream`
is a `ByteStream`, and `other` stands for a value of any other runtime
type, carrying the printed name of that type. -/
inductive PathInput where
  | str : String → PathInput
  | path : String → PathInput
  | stream : ByteStream → PathInput
  | other : String → PathInput
deriving DecidableEq, Repr

/-- Output record (`haystack.preview.Document`); this converter populates
only `text` and `id_hash_keys`. -/
structure Document where
  text : String
  id_hash_keys : List String
deriving DecidableEq, Repr

/-- One `logger.warning` record emitted by `run`: the failing item and the
message of the caught exception. -/
structure LogEntry where
  item : PathInput
  msg : String
deriving DecidableEq, Repr

/-- The external world as the converter sees it: `fs` is the file system
(the bytes of the file at a given path, if any), and `parse` is the pypdf
library (`PdfReader` construction plus per-page `extract_text`): from raw
PDF bytes it returns the list of per-page extracted texts, or the message
of the exception it raises on malformed input. -/
structure PdfEnv where
  fs : String → Option (List Nat)
  parse : List Nat → Except String (List String)

/-- Python truthiness selection `x or d` for an `Optional[List[str]]`
value `x`: both `None` and the empty list are falsy and select `d`. -/
def pyOr (x : Option (List String)) (d : List String) : List String :=
  match x with
  | none => d
  | some l => if l.isEmpty then d else l

/-- Byte-resolution step of `_read_pdf_file`: a `str` or `Path` item is
read from the file system (`PdfReader(str(path))` opening the file), a
`ByteStream` supplies its `data` directly, and an item of any other type
raises `ValueError("Unsupported path type: ...")`. -/
def resolveBytes (env : PdfEnv) : PathInput → Except String (List Nat)
  | .str s =>
    match env.fs s with
    | some bs => .ok bs
    | none => .error ("No such file or directory: " ++ s)
  | .path s =>
    match env.fs s with
    | some bs => .ok bs
    | none => .error ("No such file or directory: " ++ s)
  | .stream b => .ok b.data
  | .other t => .error ("Unsupported path type: " ++ t)

/-- Concatenation step of `_read_pdf_file`: the join, with no separator and
in page order, of the extracted texts of exactly the pages whose text is
truthy (non-empty). -/
def joinPages (pages : List String) : String :=
  String.join (pages.filter (fun t => !t.isEmpty))

/-- `PyPDFToDocument._read_pdf_file`: resolve the item to raw bytes, parse
them with pypdf, and concatenate the per-page extracted texts; any raised
exception surfaces as `.error` with its message. -/
def readPdfFile (env : PdfEnv) (p : PathInput) : Except String String :=
  match resolveBytes env p with
  | .error e => .error e
  | .ok bs =>
    match env.parse bs with
    | .error e => .error e
    | .ok pages => .ok (joinPages pages)

/-- The component: its only state is the configured default
`id_hash_keys` list. -/
structure PyPDFToDocument where
  id_hash_keys : List String
deriving DecidableEq, Repr

/-- Modelled from the spec: `LazyImport.check` (from
`haystack.preview.lazy_imports`, not under `src/`) raises the stored
message of the import error when the deferred `pypdf` import failed, and does
nothing when it succeeded. -/
def lazyImportCheck (pypdfAvailable : Bool) : Except String Unit :=
  if pypdfAvailable then .ok () else .error "Run \x27pip install pypdf\x27"

/-- `PyPDFToDocument.__init__`: runs the pypdf dependency check first
(propagating its error, so construction fails fast), then stores
`id_hash_keys or []`. -/
def PyPDFToDocument.init (pypdfAvailable : Bool)
    (id_hash_keys : Option (List String)) : Except String PyPDFToDocument :=
  match lazyImportCheck pypdfAvailable with
  | .error e => .error e
  | .ok _ => .ok { id_hash_keys := pyOr id_hash_keys [] }

/-- Modelled from the spec: the persisted configuration mapping for this
component; `default_to_dict` and `default_from_dict` live outside `src/`,
and the spec gives the configuration-dictionary format as the sole entry
`id_hash_keys` mapped to a list of strings. -/
structure ComponentConfig where
  id_hash_keys : List String
deriving DecidableEq, Repr

/-- `PyPDFToDocument.to_dict`: serialize the component, recording its
configured `id_hash_keys`. -/
def PyPDFToDocument.to_dict (self : PyPDFToDocument) : ComponentConfig :=
  { id_hash_keys := self.id_hash_keys }

/-- `PyPDFToDocument.from_dict`: rebuild a component from a configuration
mapping by calling the constructor with the recorded `id_hash_keys`. -/
def PyPDFToDocument.from_dict (pypdfAvailable : Bool)
    (data : ComponentConfig) : Except String PyPDFToDocument :=
  PyPDFToDocument.init pypdfAvailable (some data.id_hash_keys)

/-- Per-item loop of `run`: for each item in order, try `_read_pdf_file`;
on an exception, record a warning with the item and the message and
continue with the next item; on success, append a `Document` built from
the extracted text and the effective `id_hash_keys`. Returns the produced
documents and the warning log, each in processing order. -/
def runLoop (env : PdfEnv) (keys : List String) :
    List PathInput → List Document × List LogEntry
  | [] => ([], [])
  | p :: rest =>
    let r := runLoop env keys rest
    match readPdfFile env p with
    | .error e => (r.1, ⟨p, e⟩ :: r.2)
    | .ok text => (⟨text, keys⟩ :: r.1, r.2)

/-- The result of one call to `run`: `output` is the returned dictionary
(as an association list; the source returns a dictionary with the single
key `"documents"`), and `log` is the sequence of warnings recorded during
the call. -/
structure RunResult where
  output : List (String × List Document)
  log : List LogEntry
deriving DecidableEq, Repr

/-- The `documents` entry of the returned dictionary. -/
def RunResult.documents (r : RunResult) : List Document :=
  (r.output.lookup "documents").getD []

/-- `PyPDFToDocument.run`: compute the effective `id_hash_keys` as
`id_hash_keys or self.id_hash_keys`, process the items in order with
per-item exception handling, and return the dictionary with the single
key `"documents"`. -/
def PyPDFToDocument.run (env : PdfEnv) (self : PyPDFToDocument)
    (paths : List PathInput) (id_hash_keys : Option (List String)) :
    RunResult :=
  let keys := pyOr id_hash_keys self.id_hash_keys
  let r := runLoop env keys paths
  { output := [("documents", r.1)], log := r.2 }

/-- A small concrete environment for witnesses: `good.pdf` holds bytes
`[1]`, which parse to the single page `hello`; bytes `[2]` parse to pages
with empty extracted texts interleaved; bytes `[3]` parse to two pages
that both yield no text; any other path or byte sequence fails. -/
def testEnv : PdfEnv where
  fs := fun s => if s = "good.pdf" then some [1] else none
  parse := fun bs =>
    if bs = [1] then .ok ["hello"]
    else if bs = [2] then .ok ["", "ab", "", "cd"]
    else if bs = [3] then .ok ["", ""]
    else .error "EOF marker not found"

/-- The documents of a `run` result are the first component of the loop. -/
theorem run_documents (env : PdfEnv) (self : PyPDFToDocument)
    (paths : List PathInput) (k : Option (List String)) :
    (PyPDFToDocument.run env self paths k).documents
      = (runLoop env (pyOr k self.id_hash_keys) paths).1 := rfl

/-- The log of a `run` result is the second component of the loop. -/
theorem run_log (env : PdfEnv) (self : PyPDFToDocument)
    (paths : List PathInput) (k : Option (List String)) :
    (PyPDFToDocument.run env self paths k).log
      = (runLoop env (pyOr k self.id_hash_keys) paths).2 := rfl

/-- Closed form of the loop: the documents are the successful reads in
input order, the log holds the failing items with their messages. -/
theorem runLoop_eq_filterMap (env : PdfEnv) (keys : List String) :
    ∀ paths : List PathInput,
      runLoop env keys paths
        = (paths.filterMap (fun p =>
             match readPdfFile env p with
             | .ok t => some (⟨t, keys⟩ : Document)
             | .error _ => none),
           paths.filterMap (fun p =>
             match readPdfFile env p with
             | .ok _ => none
             | .error e => some (⟨p, e⟩ : LogEntry)))
  | [] => rfl
  | p :: rest => by
    have ih := runLoop_eq_filterMap env keys rest
    cases h : readPdfFile env p <;>
      simp [runLoop, h, ih, List.filterMap_cons]

/-- The loop distributes over list append, componentwise. -/
theorem runLoop_append (env : PdfEnv) (keys : List String)
    (a b : List PathInput) :
    runLoop env keys (a ++ b)
      = ((runLoop env keys a).1 ++ (runLoop env keys b).1,
         (runLoop env keys a).2 ++ (runLoop env keys b).2) := by
  simp [runLoop_eq_filterMap]

/-- Every item contributes exactly one of: a document or a log entry. -/
theorem runLoop_length (env : PdfEnv) (keys : List String) :
    ∀ paths : List PathInput,
      (runLoop env keys paths).1.length + (runLoop env keys paths).2.length
        = paths.length
  | [] => rfl
  | p :: rest => by
    have ih := runLoop_length env keys rest
    cases h : readPdfFile env p <;> simp [runLoop, h] <;> omega

/-- The number of documents is the number of items minus the number of
items whose read fails. -/
theorem runLoop_length_sub (env : PdfEnv) (keys : List String) :
    ∀ paths : List PathInput,
      (runLoop env keys paths).1.length
        = paths.length - (paths.filter (fun p =>
            match readPdfFile env p with
            | .ok _ => false
            | .error _ => true)).length
  | [] => rfl
  | p :: rest => by
    have ih := runLoop_length_sub env keys rest
    have hle := List.length_filter_le (fun p =>
      match readPdfFile env p with
      | .ok _ => false
      | .error _ => true) rest
    cases h : readPdfFile env p <;>
      simp [runLoop, h, List.filter_cons] <;> omega

/-- Every produced document carries the effective `id_hash_keys`. -/
theorem runLoop_keys (env : PdfEnv) (keys : List String)
    (paths : List PathInput) :
    ∀ d ∈ (runLoop env keys paths).1, d.id_hash_keys = keys := by
  intro d hd
  rw [runLoop_eq_filterMap] at hd
  simp only [List.mem_filterMap] at hd
  obtain ⟨p, _, hp⟩ := hd
  cases h : readPdfFile env p <;> rw [h] at hp <;> simp at hp
  rw [← hp]

/-- A non-empty override list is selected by the truthiness test. -/
theorem pyOr_ne_nil (L d : List String) (h : L ≠ []) :
    pyOr (some L) d = L := by
  simp [pyOr, List.isEmpty_iff, h]

/-- Constructing with a plain list stores that list unchanged. -/
theorem pyOr_some_nil (L : List String) : pyOr (some L) [] = L := by
  cases L <;> simp [pyOr]

/-- C1 (counterexample): with the unsupported item `other "int"` in first
position, `run` does not abort: it still produces the document for the
valid second item and returns it — partial output is returned and a
document is produced despite the contract violation. -/
theorem c1_counterexample :
    (PyPDFToDocument.run testEnv ⟨[]⟩
        [PathInput.other "int", PathInput.str "good.pdf"] none).documents
      = [⟨"hello", []⟩]
    ∧ (PyPDFToDocument.run testEnv ⟨[]⟩
        [PathInput.other "int", PathInput.str "good.pdf"] none).log
      = [⟨PathInput.other "int", "Unsupported path type: int"⟩] := by
  constructor <;> rfl

/-- C1 (amended): an item that is neither a path nor a `ByteStream` makes
`_read_pdf_file` raise a `ValueError`, but `run` catches it in its
per-item handler: the item is skipped with a warning naming the item and
the unsupported-type message, the call continues, and the documents are
exactly those of the remaining items. -/
theorem c1_amended (env : PdfEnv) (self : PyPDFToDocument)
    (pre suf : List PathInput) (t : String) (k : Option (List String)) :
    readPdfFile env (PathInput.other t)
      = Except.error ("Unsupported path type: " ++ t)
    ∧ (PyPDFToDocument.run env self (pre ++ PathInput.other t :: suf) k).documents
      = (PyPDFToDocument.run env self (pre ++ suf) k).documents
    ∧ (⟨PathInput.other t, "Unsupported path type: " ++ t⟩ : LogEntry)
      ∈ (PyPDFToDocument.run env self (pre ++ PathInput.other t :: suf) k).log := by
  refine ⟨rfl, ?_, ?_⟩ <;>
  · simp only [run_documents, run_log, runLoop_eq_filterMap]
    simp [List.filterMap_append, List.filterMap_cons, readPdfFile, resolveBytes]

/-- C2: the documents returned by `run` are exactly the successful reads,
one per item and in the order of the corresponding inputs with no gap
markers, and their number is N − F where N is the number of items and F
the number of items whose read fails. -/
theorem c2_cardinality_order (env : PdfEnv) (self : PyPDFToDocument)
    (paths : List PathInput) (k : Option (List String)) :
    (PyPDFToDocument.run env self paths k).documents
      = paths.filterMap (fun p =>
          match readPdfFile env p with
          | .ok text => some ⟨text, pyOr k self.id_hash_keys⟩
          | .error _ => none)
    ∧ (PyPDFToDocument.run env self paths k).documents.length
      = paths.length - (paths.filter (fun p =>
          match readPdfFile env p with
          | .ok _ => false
          | .error _ => true)).length := by
  refine ⟨?_, ?_⟩
  · rw [run_documents, runLoop_eq_filterMap]
  · rw [run_documents, runLoop_length_sub]

/-- C3: an item whose open/parse/extract raises an exception produces no
document, is recorded in the warning log with the item and the error
message, and does not abort the call: the remaining items are processed
and their documents are all returned. -/
theorem c3_skip_and_continue (env : PdfEnv) (self : PyPDFToDocument)
    (pre suf : List PathInput) (p : PathInput) (e : String)
    (k : Option (List String)) (h : readPdfFile env p = Except.error e) :
    (PyPDFToDocument.run env self (pre ++ p :: suf) k).documents
      = (PyPDFToDocument.run env self (pre ++ suf) k).documents
    ∧ (⟨p, e⟩ : LogEntry)
      ∈ (PyPDFToDocument.run env self (pre ++ p :: suf) k).log := by
  constructor <;>
  · simp only [run_documents, run_log, runLoop_eq_filterMap]
    simp [List.filterMap_append, List.filterMap_cons, h]

/-- C3 (witness): with a missing file between two good ones, `run` returns
the two documents of the good files and logs a warning naming the missing
file and the error message. -/
theorem c3_witness :
    (PyPDFToDocument.run testEnv ⟨[]⟩
        [PathInput.str "good.pdf", PathInput.str "missing.pdf",
         PathInput.str "good.pdf"] none).documents
      = (PyPDFToDocument.run testEnv ⟨[]⟩
          [PathInput.str "good.pdf", PathInput.str "good.pdf"] none).documents
    ∧ (⟨PathInput.str "missing.pdf",
         "No such file or directory: missing.pdf"⟩ : LogEntry)
      ∈ (PyPDFToDocument.run testEnv ⟨[]⟩
          [PathInput.str "good.pdf", PathInput.str "missing.pdf",
           PathInput.str "good.pdf"] none).log :=
  c3_skip_and_continue testEnv ⟨[]⟩ [PathInput.str "good.pdf"]
    [PathInput.str "good.pdf"] (PathInput.str "missing.pdf")
    "No such file or directory: missing.pdf" none (by rfl)

/-- C9: an explicitly empty override list is falsy, so the call behaves
exactly as a call with no override and every produced document carries the
instance's configured default `id_hash_keys`. -/
theorem c9_empty_override (env : PdfEnv) (self : PyPDFToDocument)
    (paths : List PathInput) :
    PyPDFToDocument.run env self paths (some [])
      = PyPDFToDocument.run env self paths none
    ∧ ∀ d ∈ (PyPDFToDocument.run env self paths (some [])).documents,
        d.id_hash_keys = self.id_hash_keys := by
  refine ⟨rfl, ?_⟩
  rw [run_documents]
  exact runLoop_keys env (pyOr (some []) self.id_hash_keys) paths

/-- C10: `run` always returns normally, its returned mapping has the
single key `documents`, and every item is accounted for as either a
produced document or a logged skip — every per-item exception, the
unsupported-type `ValueError` included, is caught. -/
theorem c10_total_single_key (env : PdfEnv) (self : PyPDFToDocument)
    (paths : List PathInput) (k : Option (List String)) :
    (PyPDFToDocument.run env self paths k).output
      = [("documents", (PyPDFToDocument.run env self paths k).documents)]
    ∧ (PyPDFToDocument.run env self paths k).documents.length
        + (PyPDFToDocument.run env self paths k).log.length
      = paths.length := by
  refine ⟨rfl, ?_⟩
  rw [run_documents, run_log]
  exact runLoop_length env (pyOr k self.id_hash_keys) paths

/-- C4: constructing with any list L, serializing with `to_dict`,
deserializing with `from_dict`, and serializing again yields a
configuration whose `id_hash_keys` is again L (round-trip law). -/
theorem c4_config_round_trip (L : List String) :
    (PyPDFToDocument.init true (some L)).map PyPDFToDocument.to_dict
      = Except.ok ⟨L⟩
    ∧ ((PyPDFToDocument.init true (some L)).bind (fun inst =>
          PyPDFToDocument.from_dict true (PyPDFToDocument.to_dict inst))).map
        PyPDFToDocument.to_dict
      = Except.ok ⟨L⟩ := by
  constructor <;>
    simp [PyPDFToDocument.init, PyPDFToDocument.to_dict,
      PyPDFToDocument.from_dict, lazyImportCheck, pyOr_some_nil,
      Except.map, Except.bind]

/-- C5 (counterexample): with configured default `["a"]` and the provided
override list `[]`, the produced document derives its identity from the
default `["a"]`, not from the provided override `[]`. -/
theorem c5_counterexample :
    (PyPDFToDocument.run testEnv ⟨["a"]⟩ [PathInput.str "good.pdf"]
        (some [])).documents
      = [⟨"hello", ["a"]⟩]
    ∧ (["a"] : List String) ≠ [] := by
  exact ⟨rfl, by simp⟩

/-- C5 (amended): a provided non-empty override list L is used for the
identity of every document of that call, and a later call on the same
instance with no override still uses the instance's configured default —
the call does not mutate the instance. -/
theorem c5_nonempty_override (env : PdfEnv) (self : PyPDFToDocument)
    (paths laterPaths : List PathInput) (L : List String) (h : L ≠ []) :
    (∀ d ∈ (PyPDFToDocument.run env self paths (some L)).documents,
        d.id_hash_keys = L)
    ∧ ∀ d ∈ (PyPDFToDocument.run env self laterPaths none).documents,
        d.id_hash_keys = self.id_hash_keys := by
  constructor
  · rw [run_documents, pyOr_ne_nil L self.id_hash_keys h]
    exact runLoop_keys env L paths
  · rw [run_documents]
    exact runLoop_keys env self.id_hash_keys laterPaths

/-- C5 (witness): the amended override law at the override `["custom"]`,
the default `["a"]`, and one valid item per call. -/
theorem c5_witness :
    (∀ d ∈ (PyPDFToDocument.run testEnv ⟨["a"]⟩ [PathInput.str "good.pdf"]
        (some ["custom"])).documents, d.id_hash_keys = ["custom"])
    ∧ ∀ d ∈ (PyPDFToDocument.run testEnv ⟨["a"]⟩ [PathInput.str "good.pdf"]
        none).documents, d.id_hash_keys = (⟨["a"]⟩ : PyPDFToDocument).id_hash_keys :=
  c5_nonempty_override testEnv ⟨["a"]⟩ [PathInput.str "good.pdf"]
    [PathInput.str "good.pdf"] ["custom"] (by simp)

/-- C6: a successfully parsed input yields one document whose text is the
concatenation, in page order and with no separator, of exactly the pages
with non-empty extracted text; when every page yields no text the item is
not skipped and its document has the empty string as text. -/
theorem c6_page_concatenation (env : PdfEnv) (self : PyPDFToDocument)
    (p : PathInput) (bs : List Nat) (pages : List String)
    (k : Option (List String)) (h1 : resolveBytes env p = Except.ok bs)
    (h2 : env.parse bs = Except.ok pages) :
    (PyPDFToDocument.run env self [p] k).documents
      = [⟨(pages.filter (fun t => !t.isEmpty)).foldl (fun a b => a ++ b) "",
          pyOr k self.id_hash_keys⟩]
    ∧ ((∀ t ∈ pages, t = "") →
        (PyPDFToDocument.run env self [p] k).documents
          = [⟨"", pyOr k self.id_hash_keys⟩]) := by
  have hread : readPdfFile env p = Except.ok (joinPages pages) := by
    simp [readPdfFile, h1, h2]
  have hdocs : (PyPDFToDocument.run env self [p] k).documents
      = [⟨joinPages pages, pyOr k self.id_hash_keys⟩] := by
    rw [run_documents]
    simp [runLoop, hread]
  constructor
  · rw [hdocs]; rfl
  · intro hall
    rw [hdocs]
    have hfilter : pages.filter (fun t => !t.isEmpty) = [] := by
      rw [List.filter_eq_nil_iff]
      intro t ht
      rw [hall t ht]
      decide
    simp [joinPages, hfilter, String.join]

/-- C6 (witness): a stream whose two pages both extract no text yields one
document with empty text, and the generic concatenation form holds. -/
theorem c6_witness :
    ((PyPDFToDocument.run testEnv ⟨[]⟩ [PathInput.stream ⟨[3]⟩] none).documents
      = [⟨((["", ""] : List String).filter (fun t => !t.isEmpty)).foldl
            (fun a b => a ++ b) "",
          pyOr none (⟨[]⟩ : PyPDFToDocument).id_hash_keys⟩]
    ∧ ((∀ t ∈ (["", ""] : List String), t = "") →
        (PyPDFToDocument.run testEnv ⟨[]⟩ [PathInput.stream ⟨[3]⟩] none).documents
          = [⟨"", pyOr none (⟨[]⟩ : PyPDFToDocument).id_hash_keys⟩])) :=
  c6_page_concatenation testEnv ⟨[]⟩ (PathInput.stream ⟨[3]⟩) [3] ["", ""]
    none (by rfl) (by rfl)

/-- C7: when the file at path P holds exactly the bytes of ByteStream B,
`_read_pdf_file` returns the same result for P and for B, and the two
single-item calls produce documents with identical texts. -/
theorem c7_path_stream_equivalence (env : PdfEnv) (self : PyPDFToDocument)
    (s : String) (b : ByteStream) (k : Option (List String))
    (h : env.fs s = some b.data) :
    readPdfFile env (PathInput.str s) = readPdfFile env (PathInput.stream b)
    ∧ (PyPDFToDocument.run env self [PathInput.str s] k).documents.map
        Document.text
      = (PyPDFToDocument.run env self [PathInput.stream b] k).documents.map
          Document.text := by
  have hres : readPdfFile env (PathInput.str s)
      = readPdfFile env (PathInput.stream b) := by
    rw [readPdfFile, readPdfFile, resolveBytes, resolveBytes, h]
  refine ⟨hres, ?_⟩
  rw [run_documents, run_documents]
  cases hr : readPdfFile env (PathInput.stream b) <;>
    simp [runLoop, hres, hr]

/-- C7 (witness): the equivalence at the path `good.pdf` and the stream
holding that file's bytes `[1]`. -/
theorem c7_witness :
    readPdfFile testEnv (PathInput.str "good.pdf")
      = readPdfFile testEnv (PathInput.stream ⟨[1]⟩)
    ∧ (PyPDFToDocument.run testEnv ⟨[]⟩ [PathInput.str "good.pdf"]
        none).documents.map Document.text
      = (PyPDFToDocument.run testEnv ⟨[]⟩ [PathInput.stream ⟨[1]⟩]
          none).documents.map Document.text :=
  c7_path_stream_equivalence testEnv ⟨[]⟩ "good.pdf" ⟨[1]⟩ none (by rfl)

/-- C8: when the pypdf dependency is unavailable, construction raises
the import error immediately and no instance is ever produced; when it is
available, construction succeeds with the configured list. -/
theorem c8_fail_fast_construction (keys : Option (List String)) :
    PyPDFToDocument.init false keys
      = Except.error "Run \x27pip install pypdf\x27"
    ∧ (∀ inst : PyPDFToDocument,
        PyPDFToDocument.init false keys ≠ Except.ok inst)
    ∧ PyPDFToDocument.init true keys = Except.ok ⟨pyOr keys []⟩ := by
  refine ⟨rfl, ?_, rfl⟩
  intro inst hinst
  simp [PyPDFToDocument.init, lazyImportCheck] at hinst
